import Mathlib

/-!
Verification of the lens-driver session contract described in the repository
specification, together with the example script `examples/python_example.py`.
The repository ships only the example script; the driver library itself
(`PyLensDriver`) is an external collaborator, so the session data model and
operations below are modelled from the specification's words, while the
script-level definitions (truthiness test, tuple unpacking, the scoped
`with`-block) are translated from the example source.
-/

namespace LensDriver

/-- Modelled from the spec: the enumerated operating modes of the device —
variants observed: `current` (direct current drive) and `focal_power`
(closed-loop focal power control). -/
inductive Mode
  | current
  | focalPower
  deriving DecidableEq, Repr

/-- Modelled from the spec: the error kinds of the error-handling design —
`ConnectionError`, `CommunicationError`, `InvalidModeError`,
`InvalidStateError`. -/
inductive LensError
  | connectionError
  | communicationError
  | invalidModeError
  | invalidStateError
  deriving DecidableEq, Repr

/-- Modelled from the spec: the physical device / transport behind the
session, an opaque external collaborator.  `tempResponse = none` means the
device does not respond or returns malformed data to a temperature query;
`focalRange` is the optional (min, max) pair the device reports when entering
focal-power mode; the two `CommOk` flags say whether the transport round-trip
for a mode switch / a drive-current command succeeds. -/
structure Device where
  tempResponse : Option Rat
  focalRange : Option (Rat × Rat)
  modeCommOk : Bool
  currentCommOk : Bool
  deriving DecidableEq, Repr

/-- Modelled from the spec: an open session — a device path's transport handle
(abstracted to the `Device` behaviour), the device's currently active mode
(`none` when the arbitrary prior mode is unknown), and the `debug` flag passed
at open time. -/
structure Session where
  device : Device
  mode : Option Mode
  debug : Bool
  deriving DecidableEq, Repr

/-- Modelled from the spec: dynamic string-based mode selection, mapped to the
closed enumerated type at the session boundary. -/
def parseMode (name : String) : Option Mode :=
  if name = "current" then some Mode.current
  else if name = "focal_power" then some Mode.focalPower
  else none

/-- Modelled from the spec: `GetTemperature()` queries the device
synchronously and fails with `CommunicationError` if the device does not
respond or returns malformed data. -/
def get_temperature (s : Session) : Except LensError Rat :=
  match s.device.tempResponse with
  | some t => Except.ok t
  | none => Except.error LensError.communicationError

/-- Modelled from the spec: `SetMode(mode)` sends a mode-switch command;
fails with `InvalidModeError` if the mode name is unrecognized (validated at
the call site), or `CommunicationError` on transport failure; returns the
focal-power range pair only when the mode is focal power. -/
def set_mode (s : Session) (name : String) :
    Except LensError (Session × Option (Rat × Rat)) :=
  match parseMode name with
  | none => Except.error LensError.invalidModeError
  | some m =>
    if s.device.modeCommOk then
      Except.ok ({ s with mode := some m },
        if m = Mode.focalPower then s.device.focalRange else none)
    else
      Except.error LensError.communicationError

/-- Modelled from the spec: `SetCurrent(value)` is valid only when current
mode is active; fails with `InvalidStateError` if the device is not in
current mode, or `CommunicationError` on transport failure. -/
def set_current (s : Session) (_v : Rat) : Except LensError Session :=
  if s.mode = some Mode.current then
    if s.device.currentCommOk then Except.ok s
    else Except.error LensError.communicationError
  else
    Except.error LensError.invalidStateError

/-- Python runtime values the example script can receive from the binding:
`None`, booleans, numbers and tuples. -/
inductive PyVal
  | none
  | bool (b : Bool)
  | num (q : Rat)
  | tuple (xs : List PyVal)

/-- Python truthiness, as consulted by the script's `if result:` test:
`None` and `False` are falsy, a number is falsy iff zero, a tuple is falsy
iff empty. -/
def truthy : PyVal → Bool
  | PyVal.none => false
  | PyVal.bool b => b
  | PyVal.num q => q != 0
  | PyVal.tuple xs => !xs.isEmpty

/-- Whether a Python value is a two-element tuple, the only shape the
script's `min_fp, max_fp = result` unpacking accepts in this model. -/
def isPair2 : PyVal → Bool
  | PyVal.tuple (_ :: _ :: []) => true
  | _ => false

/-- Modelled from the spec: the binding converts the optional focal-power
range returned by `SetMode` into the Python value the script sees — `None`
when absent, a two-element tuple when present. -/
def toPy : Option (Rat × Rat) → PyVal
  | Option.none => PyVal.none
  | some (a, b) => PyVal.tuple [PyVal.num a, PyVal.num b]

/-- Errors the example script can raise: a driver error propagating out, or
the `ValueError`/`TypeError` from a failed tuple unpacking. -/
inductive ScriptError
  | lensErr (e : LensError)
  | unpackErr
  deriving Repr

/-- One line printed by the example script. -/
inductive OutLine
  | msg (s : String)
  | tempLine (t : Rat)
  | rangeLine (a b : PyVal)

/-- Lines 15–17 of `examples/python_example.py`: `if result:` then
`min_fp, max_fp = result` then print the range.  Returns the lines printed,
or the unpacking error when the truthy value is not a two-element tuple. -/
def focalPrintLines (r : PyVal) : Except ScriptError (List OutLine) :=
  if truthy r then
    match r with
    | PyVal.tuple (a :: b :: []) => Except.ok [OutLine.rangeLine a b]
    | _ => Except.error ScriptError.unpackErr
  else
    Except.ok []

/-- Whether running lines 15–17 of the script on `r` prints a range line. -/
def printsRange (r : PyVal) : Bool :=
  match focalPrintLines r with
  | Except.ok (_ :: _) => true
  | _ => false

/-- Coerce a driver-level result into a script-level one. -/
def liftLens {α : Type} : Except LensError α → Except ScriptError α
  | Except.ok a => Except.ok a
  | Except.error e => Except.error (ScriptError.lensErr e)

/-- Body of the `with`-block of `main` in `examples/python_example.py`
(lines 5–17): read the temperature, switch to current mode, drive 50.0,
switch to focal-power mode and print the range when the result is truthy. -/
def mainBody (s : Session) : Except ScriptError (List OutLine) := do
  let t ← liftLens (get_temperature s)
  let r1 ← liftLens (set_mode s ("current"))
  let s2 ← liftLens (set_current r1.1 50)
  let r2 ← liftLens (set_mode s2 ("focal_power"))
  let tail ← focalPrintLines (toPy r2.2)
  pure ([OutLine.msg ("Getting temperature..."), OutLine.tempLine t,
         OutLine.msg ("Setting current mode..."),
         OutLine.msg ("Setting focal power mode...")] ++ tail)

/-- Modelled from the spec: the scoped-resource pattern of the `with`-block —
open acquires the device (failing with `ConnectionError` when it cannot be
opened, in which case no close happens), the body runs to a normal or error
outcome, and the close/release count is 1 on every scope exit, whatever the
body's outcome.  The second component counts close invocations. -/
def withSession {α : Type} (dev : Device) (dbg : Bool) (openOk : Bool)
    (body : Session → Except ScriptError α) : Except ScriptError α × Nat :=
  if openOk then
    (body { device := dev, mode := Option.none, debug := dbg }, 1)
  else
    (Except.error (ScriptError.lensErr LensError.connectionError), 0)

/-- The whole of `main` in `examples/python_example.py`: the `with`-block
running `mainBody`. -/
def runMain (dev : Device) (dbg : Bool) (openOk : Bool) :
    Except ScriptError (List OutLine) × Nat :=
  withSession dev dbg openOk mainBody

/-- Modelled from the spec: the commands the session sends to the external
transport (wire format out of scope). -/
inductive Cmd
  | queryTemp
  | modeSwitch (m : Mode)
  | driveCurrent (v : Rat)
  deriving DecidableEq, Repr

/-- Session-level operations a client can perform inside the scope. -/
inductive Op
  | getTemp
  | doSetMode (name : String)
  | doSetCurrent (v : Rat)
  deriving DecidableEq, Repr

/-- Result of a successful session operation. -/
inductive OpResult
  | unitRes
  | tempRes (t : Rat)
  | rangeRes (r : Option (Rat × Rat))
  deriving DecidableEq, Repr

/-- Modelled from the spec: `debug` enables verbose diagnostic output as a
side effect only — a log line is emitted iff the session was opened with
`debug`. -/
def dbgLog (s : Session) (m : String) : List String :=
  if s.debug then [m] else []

/-- Device commands an operation sends: a temperature query always reaches
the transport; a mode switch is sent only after call-site validation of the
mode name; a drive-current command is sent only when current mode is
active. -/
def opCmds (s : Session) : Op → List Cmd
  | Op.getTemp => [Cmd.queryTemp]
  | Op.doSetMode name =>
      match parseMode name with
      | some m => [Cmd.modeSwitch m]
      | Option.none => []
  | Op.doSetCurrent v =>
      if s.mode = some Mode.current then [Cmd.driveCurrent v] else []

/-- One session operation: the next session state and the operation's
outcome, built from the session operations above. -/
def opStep (s : Session) : Op → Session × Except LensError OpResult
  | Op.getTemp =>
      match get_temperature s with
      | Except.ok t => (s, Except.ok (OpResult.tempRes t))
      | Except.error e => (s, Except.error e)
  | Op.doSetMode name =>
      match set_mode s name with
      | Except.ok p => (p.1, Except.ok (OpResult.rangeRes p.2))
      | Except.error e => (s, Except.error e)
  | Op.doSetCurrent v =>
      match set_current s v with
      | Except.ok s' => (s', Except.ok OpResult.unitRes)
      | Except.error e => (s, Except.error e)

/-- Diagnostic output of one operation. -/
def opLog (s : Session) : Op → List String
  | Op.getTemp => dbgLog s ("get_temperature")
  | Op.doSetMode name => dbgLog s (String.append ("set_mode ") name)
  | Op.doSetCurrent _ => dbgLog s ("set_current")

/-- Run a sequence of operations, stopping at the first error (an exception
aborts the sequence); collects the final session, the per-operation results,
the device commands sent and the diagnostic log. -/
def runOps : Session → List Op →
    Session × List (Except LensError OpResult) × List Cmd × List String
  | s, [] => (s, [], [], [])
  | s, op :: rest =>
    match (opStep s op).2 with
    | Except.error e => ((opStep s op).1, [Except.error e], opCmds s op, opLog s op)
    | Except.ok v =>
      let t := runOps (opStep s op).1 rest
      (t.1, Except.ok v :: t.2.1, opCmds s op ++ t.2.2.1, opLog s op ++ t.2.2.2)

/-- C1: for every execution of the session scope — any body, whether it
finishes normally or is aborted by an error raised by any operation inside
it — the session's close/release is invoked exactly once when the scope
exits, so the device resource is never leaked. -/
theorem scope_closes_exactly_once {α : Type} (dev : Device) (dbg : Bool)
    (body : Session → Except ScriptError α) :
    (withSession dev dbg true body).2 = 1 := rfl

/-- C4: in any open session whose device is not in current mode,
`set_current` fails with `InvalidStateError`, whatever the value. -/
theorem set_current_requires_current_mode (s : Session) (v : Rat)
    (h : s.mode ≠ some Mode.current) :
    set_current s v = Except.error LensError.invalidStateError := by
  simp [set_current, h]

/-- Witness for C4 at a freshly opened session (prior mode unknown). -/
theorem set_current_requires_current_mode_witness :
    set_current ⟨⟨some 25, Option.none, true, true⟩, Option.none, false⟩ 50 =
      Except.error LensError.invalidStateError :=
  set_current_requires_current_mode
    ⟨⟨some 25, Option.none, true, true⟩, Option.none, false⟩ 50 (by decide)

/-- C5: calling `set_mode` with a mode name that is not one of the
recognized variants fails with `InvalidModeError`. -/
theorem set_mode_unrecognized_invalid (s : Session) (name : String)
    (h : parseMode name = Option.none) :
    set_mode s name = Except.error LensError.invalidModeError := by
  simp [set_mode, h]

/-- Witness for C5 at the spec's own example name. -/
theorem set_mode_unrecognized_invalid_witness :
    set_mode ⟨⟨some 25, Option.none, true, true⟩, Option.none, false⟩
        ("unsupported_mode_name") =
      Except.error LensError.invalidModeError :=
  set_mode_unrecognized_invalid
    ⟨⟨some 25, Option.none, true, true⟩, Option.none, false⟩
    ("unsupported_mode_name") (by decide)

/-- C6: `get_temperature` returns the device's reading without raising when
the device is healthy, and fails with `CommunicationError` exactly when the
device does not respond or returns malformed data. -/
theorem get_temperature_spec (s : Session) :
    (∀ t, s.device.tempResponse = some t → get_temperature s = Except.ok t) ∧
    (get_temperature s = Except.error LensError.communicationError ↔
      s.device.tempResponse = Option.none) := by
  constructor
  · intro t h
    simp [get_temperature, h]
  · cases h : s.device.tempResponse <;> simp [get_temperature, h]

/-- Witness for C6 on a healthy device reporting 25 degrees. -/
theorem get_temperature_spec_witness :
    get_temperature ⟨⟨some 25, Option.none, true, true⟩, Option.none, false⟩ =
      Except.ok 25 :=
  (get_temperature_spec
    ⟨⟨some 25, Option.none, true, true⟩, Option.none, false⟩).1 25 rfl

/-- C7: on a device whose transport accepts the mode switch and the drive
command, `set_mode "current"` followed by `set_current 50.0` completes
without raising any error. -/
theorem current_mode_sequence_ok (s : Session)
    (h1 : s.device.modeCommOk = true) (h2 : s.device.currentCommOk = true) :
    ∃ s1, set_mode s ("current") = Except.ok (s1, Option.none) ∧
      ∃ s2, set_current s1 50 = Except.ok s2 := by
  refine ⟨{ s with mode := some Mode.current }, ?_, ?_⟩
  · simp [set_mode, parseMode, h1]
  · exact ⟨{ s with mode := some Mode.current }, by simp [set_current, h2]⟩

/-- Witness for C7 on a concrete healthy device. -/
theorem current_mode_sequence_ok_witness :
    ∃ s1, set_mode ⟨⟨some 25, Option.none, true, true⟩, Option.none, false⟩
          ("current") = Except.ok (s1, Option.none) ∧
      ∃ s2, set_current s1 50 = Except.ok s2 :=
  current_mode_sequence_ok
    ⟨⟨some 25, Option.none, true, true⟩, Option.none, false⟩ rfl rfl

/-- C9: on the values `set_mode("focal_power")` can return, the script
prints the range iff the received value is truthy, and every falsy value is
handled exactly like an absent range — nothing printed, no error — so the
script cannot distinguish the two. -/
theorem focal_print_iff_truthy :
    (∀ q : Option (Rat × Rat), printsRange (toPy q) = truthy (toPy q)) ∧
    (∀ r : PyVal, truthy r = false → focalPrintLines r = Except.ok []) := by
  constructor
  · intro q
    rcases q with _ | ⟨a, b⟩ <;> rfl
  · intro r h
    simp [focalPrintLines, h]

/-- Witness for C9 at the falsy value `None`. -/
theorem focal_print_iff_truthy_witness :
    focalPrintLines PyVal.none = Except.ok [] :=
  focal_print_iff_truthy.2 PyVal.none rfl

/-- C10: a truthy result is unpacked into exactly two components: a truthy
two-element tuple prints its components, and any other truthy value makes
the unpacking raise rather than print. -/
theorem truthy_unpack_two (r : PyVal) (h : truthy r = true) :
    (∀ a b, r = PyVal.tuple [a, b] →
      focalPrintLines r = Except.ok [OutLine.rangeLine a b]) ∧
    (isPair2 r = false →
      focalPrintLines r = Except.error ScriptError.unpackErr) := by
  constructor
  · intro a b hr
    subst hr
    simp [focalPrintLines, h]
  · intro hp
    cases r with
    | none => simp [truthy] at h
    | bool b => simp [focalPrintLines, h]
    | num q => simp [focalPrintLines, h]
    | tuple xs =>
      match xs with
      | [] => simp [truthy] at h
      | [a] => simp [focalPrintLines, h]
      | [a, b] => simp [isPair2] at hp
      | a :: b :: c :: t => simp [focalPrintLines, h]

/-- Witness for C10 at the truthy one-element tuple. -/
theorem truthy_unpack_two_witness :
    focalPrintLines (PyVal.tuple [PyVal.num 1]) =
      Except.error ScriptError.unpackErr :=
  (truthy_unpack_two (PyVal.tuple [PyVal.num 1]) rfl).2 rfl

/-- C2: `set_mode` returns a (min, max) range pair only when the requested
mode is focal power and the device reports one; every other successful call
— an unrelated mode such as "current", or focal power when the device
reports no range — returns nothing. -/
theorem set_mode_range_only_focal_power (s : Session) (name : String) :
    (∀ s' p, set_mode s name = Except.ok (s', some p) →
      parseMode name = some Mode.focalPower ∧ s.device.focalRange = some p) ∧
    (∀ s' r, parseMode name ≠ some Mode.focalPower →
      set_mode s name = Except.ok (s', r) → r = Option.none) ∧
    (∀ s' r, s.device.focalRange = Option.none →
      set_mode s name = Except.ok (s', r) → r = Option.none) ∧
    (∀ s' r, set_mode s ("current") = Except.ok (s', r) → r = Option.none) := by
  have hcur : parseMode ("current") = some Mode.current := by decide
  refine ⟨?_, ?_, ?_, ?_⟩
  · intro s' p h
    cases hp : parseMode name with
    | none => simp [set_mode, hp] at h
    | some mo =>
      cases hc : s.device.modeCommOk with
      | false => simp [set_mode, hp, hc] at h
      | true =>
        cases mo with
        | current => simp [set_mode, hp, hc] at h
        | focalPower =>
          simp [set_mode, hp, hc] at h
          exact ⟨rfl, h.2⟩
  · intro s' r hne h
    cases hp : parseMode name with
    | none => simp [set_mode, hp] at h
    | some mo =>
      cases mo with
      | focalPower => exact absurd hp hne
      | current =>
        cases hc : s.device.modeCommOk with
        | false => simp [set_mode, hp, hc] at h
        | true =>
          simp [set_mode, hp, hc] at h
          exact h.2.symm
  · intro s' r hfr h
    cases hp : parseMode name with
    | none => simp [set_mode, hp] at h
    | some mo =>
      cases hc : s.device.modeCommOk with
      | false => simp [set_mode, hp, hc] at h
      | true =>
        cases mo with
        | current =>
          simp [set_mode, hp, hc] at h
          exact h.2.symm
        | focalPower =>
          simp [set_mode, hp, hc] at h
          exact h.2.symm.trans hfr
  · intro s' r h
    cases hc : s.device.modeCommOk with
    | false => simp [set_mode, hcur, hc] at h
    | true =>
      simp [set_mode, hcur, hc] at h
      exact h.2.symm

/-- Witness for C2: a focal-power switch on a device reporting the range
(1, 2) yields exactly that pair. -/
theorem set_mode_range_only_focal_power_witness :
    parseMode ("focal_power") = some Mode.focalPower ∧
      (Session.mk ⟨some 25, some (1, 2), true, true⟩ Option.none
        false).device.focalRange = some (1, 2) :=
  (set_mode_range_only_focal_power
      ⟨⟨some 25, some (1, 2), true, true⟩, Option.none, false⟩
      ("focal_power")).1
    ⟨⟨some 25, some (1, 2), true, true⟩, some Mode.focalPower, false⟩
    (1, 2) rfl

/-- C3: when the device's reported focal-power bounds are ordered (they are
a (min, max) pair), any successful `set_mode "focal_power"` call returns
nothing or a pair whose first component is at most its second. -/
theorem focal_power_range_ordered (s : Session)
    (hwf : ∀ p : Rat × Rat, s.device.focalRange = some p → p.1 ≤ p.2)
    (s' : Session) (r : Option (Rat × Rat))
    (h : set_mode s ("focal_power") = Except.ok (s', r)) :
    r = Option.none ∨ ∃ a b, r = some (a, b) ∧ a ≤ b := by
  have hfp : parseMode ("focal_power") = some Mode.focalPower := by decide
  cases hc : s.device.modeCommOk with
  | false => simp [set_mode, hfp, hc] at h
  | true =>
    simp [set_mode, hfp, hc] at h
    cases hr : s.device.focalRange with
    | none =>
      left
      rw [← h.2, hr]
    | some p =>
      right
      refine ⟨p.1, p.2, ?_, hwf p hr⟩
      rw [← h.2, hr]

/-- Witness for C3 on a device reporting the ordered range (1, 2). -/
theorem focal_power_range_ordered_witness :
    (some ((1 : Rat), (2 : Rat)) : Option (Rat × Rat)) = Option.none ∨
      ∃ a b, (some ((1 : Rat), (2 : Rat)) : Option (Rat × Rat)) = some (a, b) ∧
        a ≤ b :=
  focal_power_range_ordered
    ⟨⟨some 25, some (1, 2), true, true⟩, Option.none, false⟩
    (by intro p hp; injection hp with h2; subst h2; decide)
    ⟨⟨some 25, some (1, 2), true, true⟩, some Mode.focalPower, false⟩
    (some (1, 2)) rfl

/-- One operation step from a session only reads the device behaviour and
the active mode: its next state keeps the debug flag and everything else is
independent of it. -/
theorem opStep_shape (dev : Device) (m : Option Mode) (op : Op) :
    ∃ dev' m' r, ∀ d : Bool,
      opStep { device := dev, mode := m, debug := d } op =
        ({ device := dev', mode := m', debug := d }, r) := by
  cases op with
  | getTemp =>
    cases ht : dev.tempResponse with
    | none =>
      exact ⟨dev, m, Except.error LensError.communicationError,
        fun d => by simp [opStep, get_temperature, ht]⟩
    | some t =>
      exact ⟨dev, m, Except.ok (OpResult.tempRes t),
        fun d => by simp [opStep, get_temperature, ht]⟩
  | doSetMode name =>
    cases hp : parseMode name with
    | none =>
      exact ⟨dev, m, Except.error LensError.invalidModeError,
        fun d => by simp [opStep, set_mode, hp]⟩
    | some mo =>
      cases hc : dev.modeCommOk with
      | false =>
        exact ⟨dev, m, Except.error LensError.communicationError,
          fun d => by simp [opStep, set_mode, hp, hc]⟩
      | true =>
        exact ⟨dev, some mo,
          Except.ok (OpResult.rangeRes
            (if mo = Mode.focalPower then dev.focalRange else Option.none)),
          fun d => by simp [opStep, set_mode, hp, hc]⟩
  | doSetCurrent v =>
    by_cases hm : m = some Mode.current
    · cases hc : dev.currentCommOk with
      | false =>
        exact ⟨dev, m, Except.error LensError.communicationError,
          fun d => by simp [opStep, set_current, hm, hc]⟩
      | true =>
        exact ⟨dev, m, Except.ok OpResult.unitRes,
          fun d => by simp [opStep, set_current, hm, hc]⟩
    · exact ⟨dev, m, Except.error LensError.invalidStateError,
        fun d => by simp [opStep, set_current, hm]⟩

/-- The device commands an operation sends do not depend on the debug
flag. -/
theorem opCmds_debug_indep (dev : Device) (m : Option Mode) (d₁ d₂ : Bool)
    (op : Op) :
    opCmds { device := dev, mode := m, debug := d₁ } op =
      opCmds { device := dev, mode := m, debug := d₂ } op := by
  cases op <;> rfl

/-- Running a sequence of operations from two sessions that differ only in
the debug flag reaches the same device state and mode, the same operation
results and the same device commands. -/
theorem runOps_debug_indep (ops : List Op) (dev : Device) (m : Option Mode)
    (d₁ d₂ : Bool) :
    (runOps { device := dev, mode := m, debug := d₁ } ops).1.device =
      (runOps { device := dev, mode := m, debug := d₂ } ops).1.device ∧
    (runOps { device := dev, mode := m, debug := d₁ } ops).1.mode =
      (runOps { device := dev, mode := m, debug := d₂ } ops).1.mode ∧
    (runOps { device := dev, mode := m, debug := d₁ } ops).2.1 =
      (runOps { device := dev, mode := m, debug := d₂ } ops).2.1 ∧
    (runOps { device := dev, mode := m, debug := d₁ } ops).2.2.1 =
      (runOps { device := dev, mode := m, debug := d₂ } ops).2.2.1 := by
  induction ops generalizing dev m with
  | nil => simp [runOps]
  | cons op rest ih =>
    obtain ⟨dev', m', r, hstep⟩ := opStep_shape dev m op
    cases r with
    | error e =>
      simp [runOps, hstep d₁, hstep d₂, opCmds_debug_indep dev m d₁ d₂ op]
    | ok v =>
      obtain ⟨e1, e2, e3, e4⟩ := ih dev' m'
      simp [runOps, hstep d₁, hstep d₂, opCmds_debug_indep dev m d₁ d₂ op,
        e1, e2, e3, e4]

/-- C8: two sessions on the same device that differ only in the debug flag
run any sequence of operations to the same operation results and send the
same device commands; debug only changes the diagnostic log. -/
theorem debug_flag_noninterference (dev : Device) (m : Option Mode)
    (ops : List Op) :
    (runOps { device := dev, mode := m, debug := true } ops).2.1 =
      (runOps { device := dev, mode := m, debug := false } ops).2.1 ∧
    (runOps { device := dev, mode := m, debug := true } ops).2.2.1 =
      (runOps { device := dev, mode := m, debug := false } ops).2.2.1 :=
  ⟨(runOps_debug_indep ops dev m true false).2.2.1,
    (runOps_debug_indep ops dev m true false).2.2.2⟩

end LensDriver
